import Mathlib

/-!
# Verification of the adaptive file-duplication layer (`state_layout/src/utils.rs`)

Shallow embedding of the three public operations of the layer:

* `do_copy` — clone-preferred duplication with a process-wide capability
  latch (two sticky atomic booleans `ON_COW_FS` and `SAME_FS`) and a
  one-time warning per capability downgrade;
* `do_copy_overwrite` — removes an existing destination, then delegates to
  `do_copy`;
* `mark_readonly_and_hardlink_file` — ensures the source is read-only,
  removes an existing destination, then hardlinks.

External syscalls (`clone_file`, `copy_file_sparse`, `remove_file`,
`hard_link`, metadata/permission primitives) are collaborators: each call
takes their would-be results as explicit oracle inputs and returns, besides
the `Result`, a trace of which primitives were attempted, the warnings
emitted, and the updated latch.  Machine effects (the `static AtomicBool`s)
become explicit state passing of a `Latch` value; the sequential semantics
of `AtomicBool::swap(false, Relaxed)` is "return the previous value and
store `false`".
-/

namespace StateLayout

/-- A low-level I/O error: its kind (e.g. `PermissionDenied`), kept as an
abstract tag, and its display message (`e.kind()` / `format!("{}", e)` in
the source). -/
structure IoErr where
  kind : String
  msg : String
deriving DecidableEq, Repr

deriving instance DecidableEq for Except

/-- `ic_sys::fs::FileCloneError`: the three-way classification of a failed
`clone_file` call. -/
inductive FileCloneError where
  | DifferentFileSystems
  | OperationNotSupported
  | IoError (e : IoErr)
deriving DecidableEq, Repr

/-- The two capability flags of the latch, used to tag warnings. -/
inductive CapFlag where
  | cowSupported
  | sameFilesystem
deriving DecidableEq, Repr

/-- The process-wide capability latch: the two `static AtomicBool`s
`ON_COW_FS` and `SAME_FS` of `do_copy`. -/
structure Latch where
  on_cow_fs : Bool
  same_fs : Bool
deriving DecidableEq, Repr

/-- Both statics are initialized `AtomicBool::new(true)`. -/
def initialLatch : Latch := ⟨true, true⟩

/-- `s.contains sub` as data: `sub` occurs contiguously inside `s`. -/
def strContains (s sub : String) : Prop :=
  ∃ a b : String, a ++ sub ++ b = s

/-- The `on_err` closure of `do_copy`: translates a sparse-copy failure,
preserving its kind and embedding both paths and the original message. -/
def on_err (src dst : String) (e : IoErr) : IoErr :=
  ⟨e.kind, "failed to copy " ++ src ++ " -> " ++ dst ++ ": " ++ e.msg⟩

/-- The inline translation applied to `FileCloneError::IoError(e)` in
`do_copy`: same kind, `"failed to clone {src} -> {dst}: {e}"`. -/
def clone_err (src dst : String) (e : IoErr) : IoErr :=
  ⟨e.kind, "failed to clone " ++ src ++ " -> " ++ dst ++ ": " ++ e.msg⟩

/-- The `warn!` text of the `DifferentFileSystems` branch. -/
def warnDifferentFs (src dst : String) : String :=
  "state_manager.state_root spans multiple filesystems (attempted to reflink "
    ++ src ++ " => " ++ dst ++ "), running big canisters can be very slow"

/-- The `warn!` text of the `OperationNotSupported` branch. -/
def warnNotSupported (src dst : String) : String :=
  "StateManager runs on a filesystem not supporting reflinks (attempted to reflink "
    ++ src ++ " => " ++ dst ++ "), running big canisters can be very slow"

/-- `Result.map_err(f)` on a `std::io::Result<()>`. -/
def translate (f : IoErr → IoErr) : Except IoErr Unit → Except IoErr Unit
  | .ok () => .ok ()
  | .error e => .error (f e)

/-- Observable outcome of one `do_copy` call: the latch after the call,
which primitives were attempted, the warnings sent to the log sink, and the
returned `Result`. -/
structure CopyOutcome where
  latch : Latch
  cloneAttempted : Bool
  sparseAttempted : Bool
  warnings : List (CapFlag × String)
  result : Except IoErr Unit
deriving DecidableEq, Repr

/-- `do_copy(log, src, dst)`.  `cloneRes` is what `ic_sys::fs::clone_file`
would return if attempted, `sparseRes` what `copy_file_sparse` would
return if attempted.  Mirrors the source line by line: if both flags read
`true`, attempt the clone and dispatch on its three failure modes (the
mismatch branches `swap` their flag to `false`, warn iff the swap returned
the previous value `true`, then fall back to the sparse copy translated by
`on_err`); otherwise skip the clone and go straight to the sparse copy. -/
def do_copy (latch : Latch) (cloneRes : Except FileCloneError Unit)
    (sparseRes : Except IoErr Unit) (src dst : String) : CopyOutcome :=
  if latch.on_cow_fs && latch.same_fs then
    match cloneRes with
    | .error .DifferentFileSystems =>
        let prev := latch.same_fs
        { latch := ⟨latch.on_cow_fs, false⟩
          cloneAttempted := true
          sparseAttempted := true
          warnings :=
            if prev then [(CapFlag.sameFilesystem, warnDifferentFs src dst)] else []
          result := translate (on_err src dst) sparseRes }
    | .error .OperationNotSupported =>
        let prev := latch.on_cow_fs
        { latch := ⟨false, latch.same_fs⟩
          cloneAttempted := true
          sparseAttempted := true
          warnings :=
            if prev then [(CapFlag.cowSupported, warnNotSupported src dst)] else []
          result := translate (on_err src dst) sparseRes }
    | .error (.IoError e) =>
        { latch := latch
          cloneAttempted := true
          sparseAttempted := false
          warnings := []
          result := .error (clone_err src dst e) }
    | .ok () =>
        { latch := latch
          cloneAttempted := true
          sparseAttempted := false
          warnings := []
          result := .ok () }
  else
    { latch := latch
      cloneAttempted := false
      sparseAttempted := true
      warnings := []
      result := translate (on_err src dst) sparseRes }

/-- Oracle inputs for one `do_copy` call in a sequence. -/
structure CallSpec where
  cloneRes : Except FileCloneError Unit
  sparseRes : Except IoErr Unit
  src : String
  dst : String
deriving DecidableEq, Repr

/-- Run a sequence of `do_copy` calls, threading the latch through. -/
def runCalls (latch : Latch) : List CallSpec → List CopyOutcome
  | [] => []
  | c :: cs =>
    let o := do_copy latch c.cloneRes c.sparseRes c.src c.dst
    o :: runCalls o.latch cs

/-- Total number of warnings for flag `f` over a sequence of outcomes. -/
def countWarnings (f : CapFlag) : List CopyOutcome → Nat
  | [] => 0
  | o :: os => o.warnings.countP (fun w => w.1 == f) + countWarnings f os

/-- Observable outcome of a `do_copy_overwrite` call. -/
structure OverOutcome where
  removeAttempted : Bool
  copyOutcome : Option CopyOutcome
  latch : Latch
  result : Except IoErr Unit
deriving DecidableEq, Repr

/-- `do_copy_overwrite(log, src, dst)`: if `dst.exists()`, `remove_file`
it first, propagating a removal failure with `?` (untranslated); then
delegate to `do_copy`.  `dstExists` and `removeRes` are the oracle for the
filesystem check and the `remove_file` call. -/
def do_copy_overwrite (latch : Latch) (dstExists : Bool)
    (removeRes : Except IoErr Unit) (cloneRes : Except FileCloneError Unit)
    (sparseRes : Except IoErr Unit) (src dst : String) : OverOutcome :=
  if dstExists then
    match removeRes with
    | .error e => ⟨true, none, latch, .error e⟩
    | .ok () =>
        let o := do_copy latch cloneRes sparseRes src dst
        ⟨true, some o, o.latch, o.result⟩
  else
    let o := do_copy latch cloneRes sparseRes src dst
    ⟨false, some o, o.latch, o.result⟩

/-- `src.metadata()` as seen by `mark_readonly_and_hardlink_file`: the
read-only permission bit and (linux) the hardlink count. -/
structure Metadata where
  readonly : Bool
  nlink : Nat
deriving DecidableEq, Repr

/-- Oracle inputs for one `mark_readonly_and_hardlink_file` call. -/
structure ShareWorld where
  srcMetadata : Except IoErr Metadata
  setPermRes : Except IoErr Unit
  dstExists : Bool
  removeRes : Except IoErr Unit
  linkRes : Except IoErr Unit

/-- Observable outcome of a `mark_readonly_and_hardlink_file` call. -/
structure ShareOutcome where
  setPermAttempted : Bool
  removeAttempted : Bool
  linkAttempted : Bool
  result : Except IoErr Unit
deriving DecidableEq, Repr

/-- The tail of `mark_readonly_and_hardlink_file` after the permission
step: remove an existing `dst` (propagating failure) and `hard_link`. -/
def hardlinkStep (w : ShareWorld) (setPerm : Bool) : ShareOutcome :=
  if w.dstExists then
    match w.removeRes with
    | .error e => ⟨setPerm, true, false, .error e⟩
    | .ok () => ⟨setPerm, true, true, w.linkRes⟩
  else
    ⟨setPerm, false, true, w.linkRes⟩

/-- `mark_readonly_and_hardlink_file(log, src, dst)`: read `src`'s
metadata (propagating failure); if the permissions are not read-only, set
them read-only via `set_permissions` (propagating failure; the
`debug_assert!`s are no-ops in release builds and have no observable
effect); then remove an existing `dst` and `hard_link(src, dst)`. -/
def mark_readonly_and_hardlink_file (w : ShareWorld) : ShareOutcome :=
  match w.srcMetadata with
  | .error e => ⟨false, false, false, .error e⟩
  | .ok m =>
    if !m.readonly then
      match w.setPermRes with
      | .error e => ⟨true, false, false, .error e⟩
      | .ok () => hardlinkStep w true
    else
      hardlinkStep w false

/-! ## Helper lemmas -/

/-- With `ON_COW_FS` already `false`, `do_copy` takes the `else` branch:
no clone attempt, straight to the sparse copy, latch untouched. -/
theorem do_copy_of_not_cow (l : Latch) (h : l.on_cow_fs = false)
    (c : Except FileCloneError Unit) (s : Except IoErr Unit) (src dst : String) :
    do_copy l c s src dst = ⟨l, false, true, [], translate (on_err src dst) s⟩ := by
  simp [do_copy, h]

/-- With `SAME_FS` already `false`, `do_copy` takes the `else` branch. -/
theorem do_copy_of_not_same (l : Latch) (h : l.same_fs = false)
    (c : Except FileCloneError Unit) (s : Except IoErr Unit) (src dst : String) :
    do_copy l c s src dst = ⟨l, false, true, [], translate (on_err src dst) s⟩ := by
  simp [do_copy, h]

/-- First `OperationNotSupported` failure with both flags up: downgrade
`ON_COW_FS`, warn once, fall back to the sparse copy. -/
theorem do_copy_unsupported_first (l : Latch) (h1 : l.on_cow_fs = true)
    (h2 : l.same_fs = true) (s : Except IoErr Unit) (src dst : String) :
    do_copy l (.error .OperationNotSupported) s src dst =
      ⟨⟨false, l.same_fs⟩, true, true,
        [(CapFlag.cowSupported, warnNotSupported src dst)],
        translate (on_err src dst) s⟩ := by
  simp [do_copy, h1, h2]

/-- First `DifferentFileSystems` failure with both flags up: downgrade
`SAME_FS`, warn once, fall back to the sparse copy. -/
theorem do_copy_differentfs_first (l : Latch) (h1 : l.on_cow_fs = true)
    (h2 : l.same_fs = true) (s : Except IoErr Unit) (src dst : String) :
    do_copy l (.error .DifferentFileSystems) s src dst =
      ⟨⟨l.on_cow_fs, false⟩, true, true,
        [(CapFlag.sameFilesystem, warnDifferentFs src dst)],
        translate (on_err src dst) s⟩ := by
  simp [do_copy, h1, h2]

/-- Once `ON_COW_FS` is down, a whole run of `do_copy` calls emits no
warning and every call skips the clone and performs the sparse copy. -/
theorem runCalls_cow_down (l : Latch) (h : l.on_cow_fs = false)
    (f : CapFlag) (cs : List CallSpec) :
    countWarnings f (runCalls l cs) = 0 ∧
      ∀ o ∈ runCalls l cs, o.cloneAttempted = false ∧ o.sparseAttempted = true := by
  induction cs with
  | nil => simp [runCalls, countWarnings]
  | cons c cs ih =>
    have ho := do_copy_of_not_cow l h c.cloneRes c.sparseRes c.src c.dst
    simp only [runCalls, ho, countWarnings, List.countP_nil, Nat.zero_add, List.mem_cons]
    refine ⟨ih.1, ?_⟩
    rintro o (rfl | hmem)
    · exact ⟨rfl, rfl⟩
    · exact ih.2 o hmem

/-! ## Claims -/

/-- C2: each capability flag (`ON_COW_FS` and `SAME_FS`) starts `true`,
and no operation of the layer ever raises a flag back to `true`: a single
`do_copy` or `do_copy_overwrite` call can only lower each flag, so each
flag transitions `true → false` at most once over the process lifetime. -/
theorem latch_starts_true_and_monotone :
    initialLatch.on_cow_fs = true ∧ initialLatch.same_fs = true ∧
    (∀ (l : Latch) (c : Except FileCloneError Unit) (s : Except IoErr Unit)
      (src dst : String),
      (do_copy l c s src dst).latch.on_cow_fs ≤ l.on_cow_fs ∧
      (do_copy l c s src dst).latch.same_fs ≤ l.same_fs) ∧
    (∀ (l : Latch) (de : Bool) (rr : Except IoErr Unit)
      (c : Except FileCloneError Unit) (s : Except IoErr Unit) (src dst : String),
      (do_copy_overwrite l de rr c s src dst).latch.on_cow_fs ≤ l.on_cow_fs ∧
      (do_copy_overwrite l de rr c s src dst).latch.same_fs ≤ l.same_fs) := by
  have key : ∀ (l : Latch) (c : Except FileCloneError Unit) (s : Except IoErr Unit)
      (src dst : String),
      (do_copy l c s src dst).latch.on_cow_fs ≤ l.on_cow_fs ∧
      (do_copy l c s src dst).latch.same_fs ≤ l.same_fs := by
    rintro ⟨cow, same⟩ c s src dst
    rcases c with ce | u
    · cases ce <;> cases cow <;> cases same <;> simp [do_copy]
    · cases cow <;> cases same <;> simp [do_copy]
  refine ⟨rfl, rfl, key, ?_⟩
  intro l de rr c s src dst
  cases de with
  | false => exact key l c s src dst
  | true =>
    rcases rr with e | u
    · simp [do_copy_overwrite]
    · exact key l c s src dst

/-- C3: when the clone primitive fails with a generic I/O fault (neither
mismatch kind) while both flags are up, `do_copy` attempts no fallback
copy, leaves the latch unchanged, emits no warning, and returns the
original error kind enriched with both paths and the original message. -/
theorem do_copy_io_fault_passthrough (l : Latch) (e : IoErr)
    (s : Except IoErr Unit) (src dst : String)
    (h1 : l.on_cow_fs = true) (h2 : l.same_fs = true) :
    do_copy l (.error (.IoError e)) s src dst =
      ⟨l, true, false, [], .error (clone_err src dst e)⟩ ∧
    (clone_err src dst e).kind = e.kind ∧
    strContains (clone_err src dst e).msg src ∧
    strContains (clone_err src dst e).msg dst ∧
    strContains (clone_err src dst e).msg e.msg := by
  refine ⟨by simp [do_copy, h1, h2], rfl, ?_, ?_, ?_⟩
  · exact ⟨"failed to clone ", " -> " ++ dst ++ ": " ++ e.msg, by
      simp [clone_err, String.append_assoc]⟩
  · exact ⟨"failed to clone " ++ src ++ " -> ", ": " ++ e.msg, by
      simp [clone_err, String.append_assoc]⟩
  · exact ⟨"failed to clone " ++ src ++ " -> " ++ dst ++ ": ", "", by
      simp [clone_err, String.append_assoc]⟩

/-- Witness for C3 at a concrete latch, error and path pair. -/
theorem do_copy_io_fault_passthrough_witness :
    do_copy ⟨true, true⟩ (.error (.IoError ⟨"PermissionDenied", "denied"⟩))
        (.ok ()) "/data/a" "/data/b" =
      ⟨⟨true, true⟩, true, false, [],
        .error (clone_err "/data/a" "/data/b" ⟨"PermissionDenied", "denied"⟩)⟩ ∧
    (clone_err "/data/a" "/data/b" ⟨"PermissionDenied", "denied"⟩).kind
      = "PermissionDenied" ∧
    strContains (clone_err "/data/a" "/data/b"
      ⟨"PermissionDenied", "denied"⟩).msg "/data/a" ∧
    strContains (clone_err "/data/a" "/data/b"
      ⟨"PermissionDenied", "denied"⟩).msg "/data/b" ∧
    strContains (clone_err "/data/a" "/data/b"
      ⟨"PermissionDenied", "denied"⟩).msg "denied" :=
  do_copy_io_fault_passthrough ⟨true, true⟩ ⟨"PermissionDenied", "denied"⟩
    (.ok ()) "/data/a" "/data/b" rfl rfl

/-- C4: downgrades are independent: with both flags up, a
`DifferentFileSystems` failure lowers only `SAME_FS` (the latch becomes
`⟨true, false⟩`, so `ON_COW_FS` keeps its prior value), and an
`OperationNotSupported` failure lowers only `ON_COW_FS` (the latch becomes
`⟨false, true⟩`, so `SAME_FS` keeps its prior value). -/
theorem downgrade_flags_independent (l : Latch) (s : Except IoErr Unit)
    (src dst : String) (h1 : l.on_cow_fs = true) (h2 : l.same_fs = true) :
    (do_copy l (.error .DifferentFileSystems) s src dst).latch
      = ⟨l.on_cow_fs, false⟩ ∧
    (do_copy l (.error .OperationNotSupported) s src dst).latch
      = ⟨false, l.same_fs⟩ := by
  constructor
  · rw [do_copy_differentfs_first l h1 h2]
  · rw [do_copy_unsupported_first l h1 h2]

/-- Witness for C4 at the initial latch. -/
theorem downgrade_flags_independent_witness :
    (do_copy initialLatch (.error .DifferentFileSystems) (.ok ()) "a" "b").latch
      = ⟨initialLatch.on_cow_fs, false⟩ ∧
    (do_copy initialLatch (.error .OperationNotSupported) (.ok ()) "a" "b").latch
      = ⟨false, initialLatch.same_fs⟩ :=
  downgrade_flags_independent initialLatch (.ok ()) "a" "b" rfl rfl

/-- C5: the `on_err` translation of `do_copy` preserves the error kind and
produces a message containing the source path, the destination path and
the original error message. -/
theorem on_err_preserves_kind_and_paths (src dst : String) (e : IoErr) :
    (on_err src dst e).kind = e.kind ∧
    strContains (on_err src dst e).msg src ∧
    strContains (on_err src dst e).msg dst ∧
    strContains (on_err src dst e).msg e.msg := by
  refine ⟨rfl, ?_, ?_, ?_⟩
  · exact ⟨"failed to copy ", " -> " ++ dst ++ ": " ++ e.msg, by
      simp [on_err, String.append_assoc]⟩
  · exact ⟨"failed to copy " ++ src ++ " -> ", ": " ++ e.msg, by
      simp [on_err, String.append_assoc]⟩
  · exact ⟨"failed to copy " ++ src ++ " -> " ++ dst ++ ": ", "", by
      simp [on_err, String.append_assoc]⟩

/-- C7: `do_copy_overwrite` removes an existing destination first,
returning a removal failure untranslated without attempting the copy; when
the destination is absent, or after a successful removal, it behaves
exactly as `do_copy` on the same arguments. -/
theorem do_copy_overwrite_spec (l : Latch) (c : Except FileCloneError Unit)
    (s : Except IoErr Unit) (src dst : String) (e : IoErr)
    (r : Except IoErr Unit) :
    do_copy_overwrite l true (.error e) c s src dst = ⟨true, none, l, .error e⟩ ∧
    do_copy_overwrite l true (.ok ()) c s src dst =
      ⟨true, some (do_copy l c s src dst), (do_copy l c s src dst).latch,
        (do_copy l c s src dst).result⟩ ∧
    do_copy_overwrite l false r c s src dst =
      ⟨false, some (do_copy l c s src dst), (do_copy l c s src dst).latch,
        (do_copy l c s src dst).result⟩ := by
  refine ⟨rfl, rfl, rfl⟩

/-- C1: over any nonempty sequence of `do_copy` calls in which the clone
primitive would report `OperationNotSupported` on every call, exactly one
warning is emitted for the `cow_supported` capability, and every call
after the first performs the full sparse copy without attempting a clone. -/
theorem unsupported_sticky_single_warning (cs : List CallSpec)
    (hne : cs ≠ [])
    (hall : ∀ c ∈ cs, c.cloneRes = .error .OperationNotSupported) :
    countWarnings .cowSupported (runCalls initialLatch cs) = 1 ∧
    ∀ o ∈ (runCalls initialLatch cs).tail,
      o.cloneAttempted = false ∧ o.sparseAttempted = true := by
  match cs, hne with
  | c :: cs, _ =>
    have hc : c.cloneRes = .error .OperationNotSupported :=
      hall c (List.mem_cons_self c cs)
    have ho : do_copy initialLatch c.cloneRes c.sparseRes c.src c.dst =
        ⟨⟨false, true⟩, true, true,
          [(CapFlag.cowSupported, warnNotSupported c.src c.dst)],
          translate (on_err c.src c.dst) c.sparseRes⟩ := by
      rw [hc]; exact do_copy_unsupported_first initialLatch rfl rfl _ _ _
    have hrest := runCalls_cow_down ⟨false, true⟩ rfl CapFlag.cowSupported cs
    constructor
    · simp only [runCalls, ho, countWarnings, hrest.1]
      simp
    · simp only [runCalls, ho, List.tail_cons]
      exact hrest.2

/-- Witness for C1: two calls, both reporting `OperationNotSupported`. -/
theorem unsupported_sticky_single_warning_witness :
    ([⟨.error .OperationNotSupported, .ok (), "a", "b"⟩,
      ⟨.error .OperationNotSupported, .ok (), "a", "c"⟩] : List CallSpec) ≠ [] ∧
    countWarnings .cowSupported (runCalls initialLatch
      [⟨.error .OperationNotSupported, .ok (), "a", "b"⟩,
       ⟨.error .OperationNotSupported, .ok (), "a", "c"⟩]) = 1 ∧
    ∀ o ∈ (runCalls initialLatch
      [⟨.error .OperationNotSupported, .ok (), "a", "b"⟩,
       ⟨.error .OperationNotSupported, .ok (), "a", "c"⟩]).tail,
      o.cloneAttempted = false ∧ o.sparseAttempted = true :=
  ⟨by simp,
    unsupported_sticky_single_warning _ (by simp)
      (by decide)⟩

/-- C6: over any sequence of `do_copy` calls in which the clone primitive
always succeeds, every call attempts the clone and none performs the full
copy (so N calls yield exactly N clone calls and zero sparse copies), no
warning is emitted for either capability, and the latch stays at its
initial all-true value throughout. -/
theorem clone_preferred (cs : List CallSpec)
    (hall : ∀ c ∈ cs, c.cloneRes = .ok ()) :
    (runCalls initialLatch cs).countP (fun o => o.cloneAttempted) = cs.length ∧
    (runCalls initialLatch cs).countP (fun o => o.sparseAttempted) = 0 ∧
    countWarnings .cowSupported (runCalls initialLatch cs) = 0 ∧
    countWarnings .sameFilesystem (runCalls initialLatch cs) = 0 ∧
    ∀ o ∈ runCalls initialLatch cs, o.latch = initialLatch := by
  induction cs with
  | nil => simp [runCalls, countWarnings]
  | cons c cs ih =>
    have hc : c.cloneRes = .ok () := hall c (List.mem_cons_self c cs)
    have hrest := ih (fun c' hc' => hall c' (List.mem_cons_of_mem c hc'))
    have ho : do_copy initialLatch c.cloneRes c.sparseRes c.src c.dst =
        ⟨initialLatch, true, false, [], .ok ()⟩ := by
      rw [hc]; simp [do_copy, initialLatch]
    refine ⟨?_, ?_, ?_, ?_, ?_⟩
    · simp only [runCalls, ho, List.countP_cons, List.length_cons, hrest.1]
      simp
    · simp only [runCalls, ho, List.countP_cons, hrest.2.1]
      simp
    · simp only [runCalls, ho, countWarnings, hrest.2.2.1, List.countP_nil]
    · simp only [runCalls, ho, countWarnings, hrest.2.2.2.1, List.countP_nil]
    · simp only [runCalls, ho, List.mem_cons]
      rintro o (rfl | hmem)
      · rfl
      · exact hrest.2.2.2.2 o hmem

/-- Witness for C6: three calls, all clones succeeding. -/
theorem clone_preferred_witness :
    (runCalls initialLatch [⟨.ok (), .ok (), "a", "b"⟩,
      ⟨.ok (), .ok (), "a", "c"⟩, ⟨.ok (), .ok (), "a", "d"⟩]).countP
        (fun o => o.cloneAttempted) = 3 ∧
    (runCalls initialLatch [⟨.ok (), .ok (), "a", "b"⟩,
      ⟨.ok (), .ok (), "a", "c"⟩, ⟨.ok (), .ok (), "a", "d"⟩]).countP
        (fun o => o.sparseAttempted) = 0 ∧
    countWarnings .cowSupported (runCalls initialLatch
      [⟨.ok (), .ok (), "a", "b"⟩, ⟨.ok (), .ok (), "a", "c"⟩,
       ⟨.ok (), .ok (), "a", "d"⟩]) = 0 ∧
    countWarnings .sameFilesystem (runCalls initialLatch
      [⟨.ok (), .ok (), "a", "b"⟩, ⟨.ok (), .ok (), "a", "c"⟩,
       ⟨.ok (), .ok (), "a", "d"⟩]) = 0 ∧
    ∀ o ∈ runCalls initialLatch
      [⟨.ok (), .ok (), "a", "b"⟩, ⟨.ok (), .ok (), "a", "c"⟩,
       ⟨.ok (), .ok (), "a", "d"⟩], o.latch = initialLatch := by
  have h := clone_preferred
    [⟨.ok (), .ok (), "a", "b"⟩, ⟨.ok (), .ok (), "a", "c"⟩,
     ⟨.ok (), .ok (), "a", "d"⟩]
    (by decide)
  exact h

/-- C8: sharing an already-read-only source skips the permission change
entirely: the call equals the destination-removal-and-hardlink tail, marks
no permission attempt, and its outcome is independent of what the (never
invoked) `set_permissions` call would have returned. -/
theorem share_readonly_idempotent (w : ShareWorld) (m : Metadata)
    (hm : w.srcMetadata = .ok m) (hro : m.readonly = true) :
    mark_readonly_and_hardlink_file w = hardlinkStep w false ∧
    (mark_readonly_and_hardlink_file w).setPermAttempted = false ∧
    ∀ s' : Except IoErr Unit,
      mark_readonly_and_hardlink_file { w with setPermRes := s' }
        = mark_readonly_and_hardlink_file w := by
  have h1 : mark_readonly_and_hardlink_file w = hardlinkStep w false := by
    simp [mark_readonly_and_hardlink_file, hm, hro]
  refine ⟨h1, ?_, ?_⟩
  · rw [h1]; cases hd : w.dstExists <;> rcases hr : w.removeRes with e | u <;>
      simp [hardlinkStep, hd, hr]
  · intro s'
    rw [h1]
    have h2 : mark_readonly_and_hardlink_file { w with setPermRes := s' }
        = hardlinkStep { w with setPermRes := s' } false := by
      simp [mark_readonly_and_hardlink_file, hm, hro]
    rw [h2]
    simp [hardlinkStep]

/-- Witness for C8 at a concrete world with a read-only source. -/
theorem share_readonly_idempotent_witness :
    mark_readonly_and_hardlink_file ⟨.ok ⟨true, 1⟩, .ok (), true, .ok (), .ok ()⟩
      = hardlinkStep ⟨.ok ⟨true, 1⟩, .ok (), true, .ok (), .ok ()⟩ false ∧
    (mark_readonly_and_hardlink_file
      ⟨.ok ⟨true, 1⟩, .ok (), true, .ok (), .ok ()⟩).setPermAttempted = false ∧
    ∀ s' : Except IoErr Unit,
      mark_readonly_and_hardlink_file
        { (⟨.ok ⟨true, 1⟩, .ok (), true, .ok (), .ok ()⟩ : ShareWorld)
            with setPermRes := s' }
        = mark_readonly_and_hardlink_file
            ⟨.ok ⟨true, 1⟩, .ok (), true, .ok (), .ok ()⟩ :=
  share_readonly_idempotent ⟨.ok ⟨true, 1⟩, .ok (), true, .ok (), .ok ()⟩
    ⟨true, 1⟩ rfl rfl

/-- C9: if reading the source metadata fails, or the source is writable
and setting it read-only fails, `mark_readonly_and_hardlink_file` returns
that error and touches the destination in neither way: no removal and no
hardlink is attempted. -/
theorem share_early_failure_leaves_destination (w : ShareWorld) (e : IoErr) :
    (w.srcMetadata = .error e →
      mark_readonly_and_hardlink_file w = ⟨false, false, false, .error e⟩) ∧
    (∀ m : Metadata, w.srcMetadata = .ok m → m.readonly = false →
      w.setPermRes = .error e →
      mark_readonly_and_hardlink_file w = ⟨true, false, false, .error e⟩) := by
  constructor
  · intro hm
    simp [mark_readonly_and_hardlink_file, hm]
  · intro m hm hro hs
    simp [mark_readonly_and_hardlink_file, hm, hro, hs]

/-- Witness for C9: concrete worlds exercising both early-failure paths. -/
theorem share_early_failure_leaves_destination_witness :
    mark_readonly_and_hardlink_file
      ⟨.error ⟨"NotFound", "gone"⟩, .ok (), true, .ok (), .ok ()⟩
      = ⟨false, false, false, .error ⟨"NotFound", "gone"⟩⟩ ∧
    mark_readonly_and_hardlink_file
      ⟨.ok ⟨false, 1⟩, .error ⟨"NotFound", "gone"⟩, true, .ok (), .ok ()⟩
      = ⟨true, false, false, .error ⟨"NotFound", "gone"⟩⟩ :=
  ⟨(share_early_failure_leaves_destination
      ⟨.error ⟨"NotFound", "gone"⟩, .ok (), true, .ok (), .ok ()⟩
      ⟨"NotFound", "gone"⟩).1 rfl,
   (share_early_failure_leaves_destination
      ⟨.ok ⟨false, 1⟩, .error ⟨"NotFound", "gone"⟩, true, .ok (), .ok ()⟩
      ⟨"NotFound", "gone"⟩).2 ⟨false, 1⟩ rfl rfl rfl⟩

/-- C10: a capability downgrade is not rolled back when the fallback
sparse copy fails: after either mismatch failure with a failing fallback,
the call returns an error yet the downgraded flag is `false`, and any
subsequent `do_copy` starting from the resulting latch skips the clone. -/
theorem downgrade_survives_fallback_failure (l : Latch) (e : IoErr)
    (src dst : String) (h1 : l.on_cow_fs = true) (h2 : l.same_fs = true) :
    (do_copy l (.error .OperationNotSupported) (.error e) src dst).latch.on_cow_fs
      = false ∧
    (do_copy l (.error .OperationNotSupported) (.error e) src dst).sparseAttempted
      = true ∧
    (do_copy l (.error .OperationNotSupported) (.error e) src dst).result
      = .error (on_err src dst e) ∧
    (∀ (c : Except FileCloneError Unit) (s : Except IoErr Unit) (src' dst' : String),
      (do_copy (do_copy l (.error .OperationNotSupported) (.error e) src dst).latch
        c s src' dst').cloneAttempted = false) ∧
    (do_copy l (.error .DifferentFileSystems) (.error e) src dst).latch.same_fs
      = false ∧
    (do_copy l (.error .DifferentFileSystems) (.error e) src dst).sparseAttempted
      = true ∧
    (do_copy l (.error .DifferentFileSystems) (.error e) src dst).result
      = .error (on_err src dst e) ∧
    (∀ (c : Except FileCloneError Unit) (s : Except IoErr Unit) (src' dst' : String),
      (do_copy (do_copy l (.error .DifferentFileSystems) (.error e) src dst).latch
        c s src' dst').cloneAttempted = false) := by
  have hu := do_copy_unsupported_first l h1 h2 (.error e) src dst
  have hd := do_copy_differentfs_first l h1 h2 (.error e) src dst
  refine ⟨by rw [hu], by rw [hu], by rw [hu]; rfl, ?_, by rw [hd], by rw [hd],
    by rw [hd]; rfl, ?_⟩
  · intro c s src' dst'
    rw [hu, do_copy_of_not_cow ⟨false, l.same_fs⟩ rfl]
  · intro c s src' dst'
    rw [hd, do_copy_of_not_same ⟨l.on_cow_fs, false⟩ rfl]

/-- Witness for C10 at the initial latch with a failing fallback copy. -/
theorem downgrade_survives_fallback_failure_witness :
    (do_copy initialLatch (.error .OperationNotSupported)
      (.error ⟨"Other", "disk full"⟩) "a" "b").latch.on_cow_fs = false ∧
    (do_copy initialLatch (.error .OperationNotSupported)
      (.error ⟨"Other", "disk full"⟩) "a" "b").sparseAttempted = true ∧
    (do_copy initialLatch (.error .OperationNotSupported)
      (.error ⟨"Other", "disk full"⟩) "a" "b").result
      = .error (on_err "a" "b" ⟨"Other", "disk full"⟩) ∧
    (∀ (c : Except FileCloneError Unit) (s : Except IoErr Unit) (src' dst' : String),
      (do_copy (do_copy initialLatch (.error .OperationNotSupported)
        (.error ⟨"Other", "disk full"⟩) "a" "b").latch c s src' dst').cloneAttempted
        = false) ∧
    (do_copy initialLatch (.error .DifferentFileSystems)
      (.error ⟨"Other", "disk full"⟩) "a" "b").latch.same_fs = false ∧
    (do_copy initialLatch (.error .DifferentFileSystems)
      (.error ⟨"Other", "disk full"⟩) "a" "b").sparseAttempted = true ∧
    (do_copy initialLatch (.error .DifferentFileSystems)
      (.error ⟨"Other", "disk full"⟩) "a" "b").result
      = .error (on_err "a" "b" ⟨"Other", "disk full"⟩) ∧
    (∀ (c : Except FileCloneError Unit) (s : Except IoErr Unit) (src' dst' : String),
      (do_copy (do_copy initialLatch (.error .DifferentFileSystems)
        (.error ⟨"Other", "disk full"⟩) "a" "b").latch c s src' dst').cloneAttempted
        = false) :=
  downgrade_survives_fallback_failure initialLatch ⟨"Other", "disk full"⟩
    "a" "b" rfl rfl

end StateLayout
